import Mathlib

/-!
Verification of the spike-based-sampling repository's specification against
its source.  The Python sources are shallowly embedded below: numpy float
arithmetic is idealised as exact arithmetic (`ℚ` for the network/analytics
layer, `ℝ` for the membrane-potential kernels, whose standard-deviation
output needs `Real.sqrt`); numpy arrays become `List`s or functions out of
`Fin n`; fallible operations (bounds-checked numpy writes, shape asserts)
return `Except`.

Layout: all definitions first (grouped by source file), then the claim
theorems C1 .. C10 with their witnesses and counterexamples.
-/

/-! ### Shared basic types -/

/-- Square rational matrix, the embedding of an `(n, n)` numpy float array. -/
abbrev Mat (n : ℕ) := Fin n → Fin n → ℚ

/-- The exceptions the embedded code can raise.  `shape` stands for the
`AssertionError` raised by `_check_weight_matrix` (named `ShapeError` in the
spec's taxonomy); `indexErr` for numpy's `IndexError` on an out-of-bounds
write; `typeErr` for Python's `TypeError` (here: `float()` on an array of
size other than one); `valueErr` for numpy's `ValueError` (here: adding
arrays with non-broadcastable shapes). -/
inductive PyError where
  | shape
  | indexErr
  | typeErr
  | valueErr
deriving DecidableEq

/-! ### src/utils.py and src/sbs/utils.py : `fill_diagonal`

`utils.fill_diagonal(array, value)` asserts the array is square (enforced
here by the `Mat n` type) and sets every diagonal entry to `value`. -/

def fill_diagonal {n : ℕ} (array : Mat n) (value : ℚ) : Mat n :=
  fun i j => if i = j then value else array i j

/-! ### Calibration data and the per-sampler weight conversion

The `LIFsampler` class (`sbs/samplers.py`) is not under `src/`; only its
callers in `src/network.py` are.  The parts needed by the claims are
modelled from the spec. -/

/-- Modelled from the spec: `CalibrationCurve: {alpha: float>0, v_p05: float}`
— the fitted sigmoid slope/midpoint of one sampler; `sbs/samplers.py` is not
under `src/`. -/
structure CalibrationCurve where
  alpha : ℚ
  v_p05 : ℚ

/-- Modelled from the spec: `LIFsampler.convert_weights_theo_to_bio`, the
per-sampler "calibration-derived linear/sigmoid-slope transform" (spec §4.3);
`sbs/samplers.py` is not under `src/`.  The slope of the sampler's fitted
sigmoid is `alpha`, so the theoretical weight is scaled by it. -/
def sampler_convert_weights_theo_to_bio (cal : CalibrationCurve) (w : ℚ) : ℚ :=
  cal.alpha * w

/-- Modelled from the spec: `LIFsampler.convert_weights_bio_to_theo`, the
"inverse per-column transform" (spec §4.3) of
`sampler_convert_weights_theo_to_bio`. -/
def sampler_convert_weights_bio_to_theo (cal : CalibrationCurve) (w : ℚ) : ℚ :=
  w / cal.alpha

/-! ### src/network.py : `BoltzmannMachineBase` weight handling -/

/-- Embedding of `BoltzmannMachineBase.convert_weights_bio_to_theo` (network.py:265-270):
for each target column `j`, sampler `j` converts that column.  The
per-sampler conversion is elementwise, so the loop over columns is the
pointwise map below. -/
def convert_weights_bio_to_theo {n : ℕ} (samplers : Fin n → CalibrationCurve)
    (weights : Mat n) : Mat n :=
  fun i j => sampler_convert_weights_bio_to_theo (samplers j) (weights i j)

/-- Embedding of `BoltzmannMachineBase.convert_weights_theo_to_bio` (network.py:272-278). -/
def convert_weights_theo_to_bio {n : ℕ} (samplers : Fin n → CalibrationCurve)
    (weights : Mat n) : Mat n :=
  fun i j => sampler_convert_weights_theo_to_bio (samplers j) (weights i j)

/-- The argument of the weight setters: `np.array(weights)` either has shape
`()` (a scalar) or a two-dimensional shape `(rows, cols)`. -/
inductive WeightsValue where
  | scalar (s : ℚ)
  | matrix (rows cols : ℕ) (entries : ℕ → ℕ → ℚ)

/-- Embedding of `BoltzmannMachineBase._check_weight_matrix` (network.py:420-433): a scalar
is broadcast to a full `(n, n)` matrix; any other shape than `(n, n)` fails
the assert; finally the diagonal is zeroed via `utils.fill_diagonal`. -/
def check_weight_matrix (n : ℕ) (w : WeightsValue) : Except PyError (Mat n) :=
  match w with
  | .scalar s => .ok (fill_diagonal (fun _ _ => s) 0)
  | .matrix rows cols entries =>
    if rows = n ∧ cols = n then
      .ok (fill_diagonal (fun i j => entries i j) 0)
    else
      .error .shape

/-- Modelled from the spec: the cache state of the `meta.DependsOn` descriptor
pair behind `weights_theo` / `weights_bio` (`sbs/meta.py` is not under
`src/`).  Spec §4.3: the two representations are two views of one quantity;
a write to one stores the checked value and "marks the other stale until
re-derived"; a read of an empty cache recomputes from the other view. -/
structure BMWeightsState (n : ℕ) where
  theoCache : Option (Mat n)
  bioCache : Option (Mat n)

/-- Setter part of `BoltzmannMachineBase.weights_theo` (network.py:189-206):
the value is checked by `_check_weight_matrix` and stored; the dependent
`weights_bio` cache is invalidated.  If the check raises, the exception
propagates before anything is stored, leaving the state unchanged. -/
def set_weights_theo {n : ℕ} (st : BMWeightsState n) (x : WeightsValue) :
    BMWeightsState n :=
  match check_weight_matrix n x with
  | .error _ => st
  | .ok m => ⟨some m, none⟩

/-- Setter part of `BoltzmannMachineBase.weights_bio` (network.py:208-225). -/
def set_weights_bio {n : ℕ} (st : BMWeightsState n) (x : WeightsValue) :
    BMWeightsState n :=
  match check_weight_matrix n x with
  | .error _ => st
  | .ok m => ⟨none, some m⟩

/-- Getter part of `BoltzmannMachineBase.weights_bio` (network.py:208-225):
return the cached value if fresh, otherwise convert the theoretical matrix.
`none` is returned only when neither representation was ever set (the real
constructor always sets `weights_theo = 0.`). -/
def get_weights_bio {n : ℕ} (samplers : Fin n → CalibrationCurve)
    (st : BMWeightsState n) : Option (Mat n) :=
  match st.bioCache with
  | some m => some m
  | none => st.theoCache.map (convert_weights_theo_to_bio samplers)

/-- Getter part of `BoltzmannMachineBase.weights_theo` (network.py:189-206). -/
def get_weights_theo {n : ℕ} (samplers : Fin n → CalibrationCurve)
    (st : BMWeightsState n) : Option (Mat n) :=
  match st.theoCache with
  | some m => some m
  | none => st.bioCache.map (convert_weights_bio_to_theo samplers)

/-! ### Membrane-potential distribution kernels

Embedded over `ℝ` (floats idealised as reals).  Each kernel receives the
caller's rate/weight arrays; the statements `rates_exc /= 1000.` and
`rates_inh /= 1000.` mutate the caller's arrays in place, so each kernel
returns, next to its 4-tuple (3-tuple for the old `utils.py` variant), the
final contents of the two rate arrays — the caller's post-call view.  The
assignments `weights_exc = np.abs(weights_exc)` only rebind the local name
and do not affect the caller. -/

/-- Embedding of `np.dot` on two equal-length 1-d arrays. -/
def np_dot (a b : List ℝ) : ℝ := (List.zipWith (fun x y => x * y) a b).sum

/-- Numpy addition of two 1-d arrays under broadcasting (modelled from the
numpy documentation, an external collaborator): equal lengths add
elementwise, a size-1 operand is broadcast, and any other length mismatch
raises `ValueError`. -/
def np_broadcast_add (a b : List ℝ) : Except PyError (List ℝ) :=
  if a.length = b.length then .ok (List.zipWith (fun x y => x + y) a b)
  else if a.length = 1 then .ok (b.map (fun y => a.headD 0 + y))
  else if b.length = 1 then .ok (a.map (fun x => x + b.headD 0))
  else .error .valueErr

/-- Python's `float()` applied to a numpy array (modelled from the
documented semantics): a size-1 array converts to its sole element, any
other size raises `TypeError` ("only size-1 arrays can be converted to
Python scalars"). -/
def np_float (l : List ℝ) : Except PyError ℝ :=
  if l.length = 1 then .ok (l.headD 0) else .error .typeErr

/-- Result 4-tuple of the `sbs/utils.py` kernels:
`(v_eff, np.sqrt(var), g_tot, tau_eff)`. -/
structure MPDist where
  v_eff : ℝ
  sigma : ℝ
  g_tot : ℝ
  tau_eff : ℝ

/-- Result 3-tuple of the old `src/utils.py` kernels:
`(v_eff, np.sqrt(var), g_tot)` — no `tau_eff` is returned there. -/
structure MPDist3 where
  v_eff : ℝ
  sigma : ℝ
  g_tot : ℝ

namespace SbsUtils

/-- Embedding of `IF_cond_exp_distribution`, sbs/utils.py:61-109. -/
noncomputable def IF_cond_exp_distribution
    (rates_exc rates_inh weights_exc weights_inh : List ℝ)
    (e_rev_E e_rev_I tau_syn_E tau_syn_I g_l v_rest cm : ℝ) :
    MPDist × List ℝ × List ℝ :=
  -- rates_exc /= 1000. ; rates_inh /= 1000.   (in place, caller's arrays)
  let rates_exc := rates_exc.map (fun r => r / 1000)
  let rates_inh := rates_inh.map (fun r => r / 1000)
  -- weights_exc = np.abs(weights_exc)          (rebinds the local name only)
  let weights_exc := weights_exc.map (fun w => |w|)
  let weights_inh := weights_inh.map (fun w => |w|)
  let g_exc := np_dot weights_exc rates_exc * tau_syn_E
  let g_inh := np_dot weights_inh rates_inh * tau_syn_I
  let g_tot := g_exc + g_inh + g_l
  let tau_eff := cm / g_tot
  let v_eff := (e_rev_E * g_exc + e_rev_I * g_inh + v_rest * g_l) / g_tot
  let tau_g_exc := 1 / (1 / tau_syn_E - 1 / tau_eff)
  let tau_g_inh := 1 / (1 / tau_syn_I - 1 / tau_eff)
  let S_exc := weights_exc.map (fun w => w * (e_rev_E - v_eff) * tau_g_exc / tau_eff / g_tot)
  let S_inh := weights_inh.map (fun w => w * (e_rev_I - v_eff) * tau_g_inh / tau_eff / g_tot)
  let var_tau_e := tau_syn_E / 2 + tau_eff / 2 - 2 * tau_eff * tau_syn_E / (tau_eff + tau_syn_E)
  let var_tau_i := tau_syn_I / 2 + tau_eff / 2 - 2 * tau_eff * tau_syn_I / (tau_eff + tau_syn_I)
  let var := np_dot rates_exc (S_exc.map (fun s => s ^ 2)) * var_tau_e
           + np_dot rates_inh (S_inh.map (fun s => s ^ 2)) * var_tau_i
  (⟨v_eff, Real.sqrt var, g_tot, tau_eff⟩, rates_exc, rates_inh)

/-- Embedding of `IF_cond_alpha_distribution`, sbs/utils.py:112-169. -/
noncomputable def IF_cond_alpha_distribution
    (rates_exc rates_inh weights_exc weights_inh : List ℝ)
    (e_rev_E e_rev_I tau_syn_E tau_syn_I g_l v_rest cm : ℝ) :
    MPDist × List ℝ × List ℝ :=
  let rates_exc := rates_exc.map (fun r => r / 1000)
  let rates_inh := rates_inh.map (fun r => r / 1000)
  let weights_exc := weights_exc.map (fun w => |w|)
  let weights_inh := weights_inh.map (fun w => |w|)
  let g_exc := np_dot weights_exc rates_exc * tau_syn_E * Real.exp 1
  let g_inh := np_dot weights_inh rates_inh * tau_syn_I * Real.exp 1
  let g_tot := g_exc + g_inh + g_l
  let tau_eff := cm / g_tot
  let v_eff := (e_rev_E * g_exc + e_rev_I * g_inh + v_rest * g_l) / g_tot
  let tau_g_exc := 1 / (1 / tau_syn_E - 1 / tau_eff)
  let tau_g_inh := 1 / (1 / tau_syn_I - 1 / tau_eff)
  -- s for sum
  let tau_s_exc := 1 / (1 / tau_syn_E + 1 / tau_eff)
  let tau_s_inh := 1 / (1 / tau_syn_I + 1 / tau_eff)
  let S_exc := weights_exc.map (fun w =>
    w * (e_rev_E - v_eff) * tau_g_exc / tau_eff / g_tot * Real.exp 1)
  let S_inh := weights_inh.map (fun w =>
    w * (e_rev_I - v_eff) * tau_g_inh / tau_eff / g_tot * Real.exp 1)
  let var_tau_exc := tau_syn_E ^ 3 / 4
                   + 2 * tau_g_exc * (tau_syn_E ^ 2 / 4 - tau_s_exc ^ 2)
                   + tau_g_exc ^ 2 * ((tau_syn_E + tau_eff) / 2 - 2 * tau_s_exc)
  let var_tau_inh := tau_syn_I ^ 3 / 4
                   + 2 * tau_g_inh * (tau_syn_I ^ 2 / 4 - tau_s_inh ^ 2)
                   + tau_g_inh ^ 2 * ((tau_syn_I + tau_eff) / 2 - 2 * tau_s_inh)
  let var := np_dot rates_exc (S_exc.map (fun s => s ^ 2)) * var_tau_exc
           + np_dot rates_inh (S_inh.map (fun s => s ^ 2)) * var_tau_inh
  (⟨v_eff, Real.sqrt var, g_tot, tau_eff⟩, rates_exc, rates_inh)

/-- Embedding of `IF_curr_exp_distribution`, sbs/utils.py:172-214. -/
noncomputable def IF_curr_exp_distribution
    (rates_exc rates_inh weights_exc weights_inh : List ℝ)
    (v_rest tau_syn_E tau_syn_I g_l cm : ℝ) :
    MPDist × List ℝ × List ℝ :=
  let rates_exc := rates_exc.map (fun r => r / 1000)
  let rates_inh := rates_inh.map (fun r => r / 1000)
  let I_exc := np_dot weights_exc rates_exc * tau_syn_E
  let I_inh := np_dot weights_inh rates_inh * tau_syn_I
  let g_tot := g_l
  let tau_eff := cm / g_tot
  let v_eff := (I_exc + I_inh) / g_l + v_rest
  let tau_g_exc := 1 / (1 / tau_syn_E - 1 / tau_eff)
  let tau_g_inh := 1 / (1 / tau_syn_I - 1 / tau_eff)
  let S_exc := weights_exc.map (fun w => w * tau_g_exc / tau_eff / g_tot)
  let S_inh := weights_inh.map (fun w => w * tau_g_inh / tau_eff / g_tot)
  let var := np_dot rates_exc (S_exc.map (fun s => s ^ 2))
               * (tau_syn_E / 2 + tau_eff / 2
                  + -2 * tau_eff * tau_syn_E / (tau_eff + tau_syn_E))
           + np_dot rates_inh (S_inh.map (fun s => s ^ 2))
               * (tau_syn_I / 2 + tau_eff / 2
                  + -2 * tau_eff * tau_syn_I / (tau_eff + tau_syn_I))
  (⟨v_eff, Real.sqrt var, g_tot, tau_eff⟩, rates_exc, rates_inh)

/-- Embedding of `IF_curr_alpha_distribution`, sbs/utils.py:217-268.  Unlike
in the other kernels, `S_exc` and `S_inh` here are SCALARS (`I_exc` is
already a completed dot product), so `np.dot(rates_exc, S_exc**2)` at line
265 is — by numpy's documented 0-d-operand semantics — an elementwise
product yielding an array of the shape of `rates_exc`; `var` is therefore
an ARRAY (its two terms combined under numpy broadcasting, `ValueError` on
incompatible shapes), and `float(np.sqrt(var))` in the return line raises
`TypeError` unless that array has exactly one element.  The kernel hence
returns only for inputs whose variance array has size one. -/
noncomputable def IF_curr_alpha_distribution
    (rates_exc rates_inh weights_exc weights_inh : List ℝ)
    (v_rest tau_syn_E tau_syn_I g_l cm : ℝ) :
    Except PyError (MPDist × List ℝ × List ℝ) :=
  let rates_exc := rates_exc.map (fun r => r / 1000)
  let rates_inh := rates_inh.map (fun r => r / 1000)
  let I_exc := np_dot weights_exc rates_exc * tau_syn_E * Real.exp 1
  let I_inh := np_dot weights_inh rates_inh * tau_syn_I * Real.exp 1
  let g_tot := g_l
  let tau_eff := cm / g_tot
  let v_eff := (I_exc + I_inh) / g_l + v_rest
  let tau_g_exc := 1 / (1 / tau_syn_E - 1 / tau_eff)
  let tau_g_inh := 1 / (1 / tau_syn_I - 1 / tau_eff)
  -- s for sum
  let tau_s_exc := 1 / (1 / tau_syn_E + 1 / tau_eff)
  let tau_s_inh := 1 / (1 / tau_syn_I + 1 / tau_eff)
  let S_exc := I_exc * tau_g_exc / tau_eff / g_tot
  let S_inh := I_inh * tau_g_inh / tau_eff / g_tot
  let var_tau_exc := tau_syn_E ^ 3 / 4
                   + 2 * tau_g_exc * (tau_syn_E ^ 2 / 4 - tau_s_exc ^ 2)
                   + tau_g_exc ^ 2 * ((tau_syn_E + tau_eff) / 2 - 2 * tau_s_exc)
  let var_tau_inh := tau_syn_I ^ 3 / 4
                   + 2 * tau_g_inh * (tau_syn_I ^ 2 / 4 - tau_s_inh ^ 2)
                   + tau_g_inh ^ 2 * ((tau_syn_I + tau_eff) / 2 - 2 * tau_s_inh)
  -- np.dot(rates_exc, S_exc**2) with scalar S_exc multiplies elementwise,
  -- and the scalar var_tau factors scale the resulting arrays
  match np_broadcast_add
      ((rates_exc.map (fun r => r * S_exc ^ 2)).map (fun x => x * var_tau_exc))
      ((rates_inh.map (fun r => r * S_inh ^ 2)).map (fun x => x * var_tau_inh)) with
  | .error e => .error e
  | .ok var =>
    -- float(np.sqrt(var)) : np.sqrt is elementwise, float() needs size one
    match np_float (var.map Real.sqrt) with
    | .error e => .error e
    | .ok sigma => .ok (⟨v_eff, sigma, g_tot, tau_eff⟩, rates_exc, rates_inh)

end SbsUtils

namespace Utils

/-- Embedding of `IF_cond_exp_distribution`, src/utils.py:22-71 — the older variant:
no absolute value is taken of the weights before the conductance sums, and
only a 3-tuple `(v_eff, np.sqrt(var), g_tot)` is returned. -/
noncomputable def IF_cond_exp_distribution
    (rates_exc rates_inh weights_exc weights_inh : List ℝ)
    (e_rev_E e_rev_I tau_syn_E tau_syn_I g_l v_rest cm : ℝ) :
    MPDist3 × List ℝ × List ℝ :=
  let rates_exc := rates_exc.map (fun r => r / 1000)
  let rates_inh := rates_inh.map (fun r => r / 1000)
  let g_exc := np_dot weights_exc rates_exc * tau_syn_E
  let g_inh := np_dot weights_inh rates_inh * tau_syn_I
  let g_tot := g_exc + g_inh + g_l
  let tau_eff := cm / g_tot
  let v_eff := (e_rev_E * g_exc + e_rev_I * g_inh + v_rest * g_l) / g_tot
  let tau_g_exc := 1 / (1 / tau_syn_E - 1 / tau_eff)
  let tau_g_inh := 1 / (1 / tau_syn_I - 1 / tau_eff)
  let S_exc := weights_exc.map (fun w => w * (e_rev_E - v_eff) * tau_g_exc / tau_eff / g_tot)
  let S_inh := weights_inh.map (fun w => w * (e_rev_I - v_eff) * tau_g_inh / tau_eff / g_tot)
  let var_tau_e := tau_syn_E / 2 + tau_eff / 2 - 2 * tau_eff * tau_syn_E / (tau_eff + tau_syn_E)
  let var_tau_i := tau_syn_I / 2 + tau_eff / 2 - 2 * tau_eff * tau_syn_I / (tau_eff + tau_syn_I)
  let var := np_dot rates_exc (S_exc.map (fun s => s ^ 2)) * var_tau_e
           + np_dot rates_inh (S_inh.map (fun s => s ^ 2)) * var_tau_i
  (⟨v_eff, Real.sqrt var, g_tot⟩, rates_exc, rates_inh)

end Utils

/-! ### Spike-train analytics : `get_ordered_spike_idx`

`src/utils.py:260-282` and `src/sbs/utils.py:484-506` (identical bodies).
The function first builds a flat record array by writing, train after train,
the train index into the `id` field and the spike times into the `t` field;
it then indexes that array with `np.argsort(spikes["t"])`.  `np.argsort` is
an external numpy routine; all it guarantees is a permutation of the indices
that makes the `t` column ascending — with the default `kind='quicksort'`
the relative order of equal keys is NOT specified (only `kind='stable'`
would pin it down).  The sort step is therefore embedded as the relation
`IsOrderedSpikeIdx` admitting every output numpy may produce. -/

/-- One record of the `(num_spikes,)` record array: fields `id` and `t`. -/
structure Spike where
  id : ℕ
  t : ℚ
deriving DecidableEq

/-- The flattening loop of `get_ordered_spike_idx`, started at train index
`k`: block `i` of the output carries id `k + i` and the times of train `i`. -/
def flatten_spikes_from (k : ℕ) : List (List ℚ) → List Spike
  | [] => []
  | st :: rest => st.map (fun t => ⟨k, t⟩) ++ flatten_spikes_from (k + 1) rest

/-- The unsorted record array built by `get_ordered_spike_idx` before the
`argsort` step (ids and times written train after train). -/
def flatten_spikes (spiketrains : List (List ℚ)) : List Spike :=
  flatten_spikes_from 0 spiketrains

/-- The possible return values of `get_ordered_spike_idx`: indexing the flat
record array by an `np.argsort(spikes["t"])` permutation yields exactly the
permutations of `flatten_spikes` whose `t` column is ascending. -/
def IsOrderedSpikeIdx (spiketrains : List (List ℚ)) (out : List Spike) : Prop :=
  out.Perm (flatten_spikes spiketrains) ∧ out.Sorted (fun a b => a.t ≤ b.t)

/-! ### src/network.py : `ThoroughBM.dist_marginal_sim`

network.py:644-661.  `marginals = np.zeros((len(selected_sampler_idx),))`,
then for each selected index `i` the code executes
`marginals[i] = len(spiketrains[i]) * tau_refrac_i` — note the write goes to
position `i`, the GLOBAL sampler index, not to `i`'s position within the
selected subset — and finally divides by the duration.  The numpy write is
bounds checked: writing at `i >= len(marginals)` raises `IndexError`. -/

/-- A bounds-checked numpy element write `l[i] = v`. -/
def np_setitem (l : List ℚ) (i : ℕ) (v : ℚ) : Except PyError (List ℚ) :=
  if i < l.length then .ok (l.set i v) else .error .indexErr

/-- The write loop of `dist_marginal_sim`: for each selected index `i`, in
order, execute `marginals[i] = len(spiketrains[i]) * tau_refracs[i]`; a
raised `IndexError` aborts the loop. -/
def write_marginals (spiketrains : List (List ℚ)) (tau_refracs : List ℚ) :
    List ℚ → List ℕ → Except PyError (List ℚ)
  | acc, [] => .ok acc
  | acc, i :: rest =>
    match np_setitem acc i
        (((spiketrains.getD i []).length : ℚ) * tau_refracs.getD i 0) with
    | .error e => .error e
    | .ok acc2 => write_marginals spiketrains tau_refracs acc2 rest

/-- Embedding of `ThoroughBM.dist_marginal_sim` (network.py:644-661).  `spiketrains` and
`tau_refracs` have one entry per sampler; `selected_sampler_idx` is the
deduplicated list of selected sampler indices.  The result array starts as
`np.zeros((len(selected_sampler_idx),))` and is divided by the duration at
the end. -/
def dist_marginal_sim (spiketrains : List (List ℚ)) (tau_refracs : List ℚ)
    (duration : ℚ) (selected_sampler_idx : List ℕ) : Except PyError (List ℚ) :=
  match write_marginals spiketrains tau_refracs
      (List.replicate selected_sampler_idx.length (0 : ℚ)) selected_sampler_idx with
  | .error e => .error e
  | .ok marginals => .ok (marginals.map (fun m => m / duration))

/-! ### src/network.py : `BoltzmannMachineBase.load_calibration`

network.py:318-335.  `sampler.load_calibration(id=...)` lives in
`sbs/samplers.py`, which is not under `src/`; per the spec it attempts to
load one calibration and reports success, so it is modelled as a boolean
outcome function of the requested id (`none` = "load the latest"). -/

/-- Modelled from the spec: the slice of `LIFsampler` that
`BoltzmannMachineBase.load_calibration` touches — `neuron_params.id` and the
success/failure outcome of `load_calibration(id=...)` (`sbs/samplers.py` is
not under `src/`). -/
structure SamplerModel where
  param_id : ℤ
  load_ok : Option ℕ → Bool

/-- The loop of `BoltzmannMachineBase.load_calibration`, at loop counter `i`:
every sampler is visited; `ids[i]?` embeds `ids[i] if i < len(ids) else
None`; a failed load appends `sampler.neuron_params.id` to `failed`. -/
def load_calibration_from (i : ℕ) (ids : List ℕ) : List SamplerModel → List ℤ
  | [] => []
  | s :: rest =>
    (if s.load_ok ids[i]? then [] else [s.param_id])
      ++ load_calibration_from (i + 1) ids rest

/-- Embedding of `BoltzmannMachineBase.load_calibration(*ids)` (network.py:318-335):
returns the list of sampler(-parameter) ids that failed. -/
def load_calibration (samplers : List SamplerModel) (ids : List ℕ) : List ℤ :=
  load_calibration_from 0 ids samplers

/-! ### src/gather_calibration_data.py : intended probe points

`standalone_gather_calibration_data` (lines 68-135) cannot run as written:
its probe line `np.linspace(mean-spread, mean+spead, num)` references the
undefined name `spead` (NameError) and its conversion line divides by
`calib_data["duration"]` where only `calib_cfg` is in scope (NameError).
The definitions below capture the intended computation for those two lines,
with the typos corrected. -/

/-- Modelled from the numpy documentation of `np.linspace(start, stop, num)`
(an external library routine, `endpoint=True`): `num` samples
`start + i*(stop-start)/(num-1)` for `i < num`. -/
def linspace (start stop : ℚ) (num : ℕ) : List ℚ :=
  (List.range num).map
    (fun (i : ℕ) => start + (i : ℚ) * (stop - start) / ((num : ℚ) - 1))

/-- Modelled from the spec: the probe points of
`standalone_gather_calibration_data` — "`num_samples` equally spaced
resting-potential probe points in `[mean − std_range·std, mean +
std_range·std]`"; the source line is unrunnable because of the misspelled
name `spead` where `spread = std_range * std` is meant. -/
def samples_v_rest_intended (mean std std_range : ℚ) (num : ℕ) : List ℚ :=
  linspace (mean - std_range * std) (mean + std_range * std) num

/-- Modelled from the spec: the ON-probability conversion of
`standalone_gather_calibration_data` — `p_on = num_spikes * tau_refrac /
duration`; the source line divides by `calib_data["duration"]`, an undefined
name, where the duration of `calib_cfg` is meant. -/
def samples_p_on_intended (num_spikes : List ℕ) (tau_refrac duration : ℚ) :
    List ℚ :=
  num_spikes.map (fun k => (k : ℚ) * tau_refrac / duration)

/-! ## Claim theorems -/

/-! ### C1 : bio↔theo round trip and the diagonal -/

/-- Claim C1 counterexample: `convert_weights_theo_to_bio` does NOT force the
diagonal to zero (only the setter `_check_weight_matrix` does).  With one
sampler of valid calibration `alpha = 1` and the matrix `W = [[1]]`, the
intermediate matrix `convert_weights_theo_to_bio(W)` has diagonal entry `1`,
not `0` as the claim requires. -/
theorem C1_counterexample :
    convert_weights_theo_to_bio (fun _ : Fin 1 => CalibrationCurve.mk 1 0)
      (fun _ _ => (1 : ℚ)) 0 0 ≠ 0 := by
  norm_num [convert_weights_theo_to_bio, sampler_convert_weights_theo_to_bio]

/-- Claim C1, amended: for every matrix `W` whose diagonal is already zero
(the invariant every stored weight matrix satisfies) and calibrations with
`alpha > 0`, converting with `convert_weights_theo_to_bio` and back with
`convert_weights_bio_to_theo` reconstructs `W` exactly, and both the
intermediate and the final matrix have an all-zero diagonal. -/
theorem C1_roundtrip_zero_diag (n : ℕ) (samplers : Fin n → CalibrationCurve)
    (W : Mat n) (hα : ∀ j, 0 < (samplers j).alpha) (hdiag : ∀ i, W i i = 0) :
    convert_weights_bio_to_theo samplers (convert_weights_theo_to_bio samplers W) = W
    ∧ (∀ i, convert_weights_theo_to_bio samplers W i i = 0)
    ∧ (∀ i, convert_weights_bio_to_theo samplers
        (convert_weights_theo_to_bio samplers W) i i = 0) := by
  have hrt : convert_weights_bio_to_theo samplers
      (convert_weights_theo_to_bio samplers W) = W := by
    funext i j
    simp only [convert_weights_bio_to_theo, convert_weights_theo_to_bio,
      sampler_convert_weights_bio_to_theo, sampler_convert_weights_theo_to_bio]
    exact mul_div_cancel_left₀ _ (ne_of_gt (hα j))
  refine ⟨hrt, ?_, ?_⟩
  · intro i
    simp only [convert_weights_theo_to_bio,
      sampler_convert_weights_theo_to_bio, hdiag i, mul_zero]
  · intro i
    rw [hrt]
    exact hdiag i

/-- Witness for `C1_roundtrip_zero_diag` at `n = 1`, `alpha = 2`, `W = 0`. -/
theorem C1_roundtrip_zero_diag_witness :
    (∀ j : Fin 1, 0 < ((fun _ : Fin 1 => CalibrationCurve.mk 2 0) j).alpha)
    ∧ convert_weights_bio_to_theo (fun _ : Fin 1 => CalibrationCurve.mk 2 0)
        (convert_weights_theo_to_bio (fun _ : Fin 1 => CalibrationCurve.mk 2 0)
          (fun _ _ => (0 : ℚ)))
      = (fun _ _ => (0 : ℚ)) :=
  ⟨by intro j; norm_num,
   (C1_roundtrip_zero_diag 1 (fun _ => CalibrationCurve.mk 2 0) (fun _ _ => 0)
     (by intro j; norm_num) (fun _ => rfl)).1⟩

/-! ### C2 : the two weight views and their caches -/

/-- Claim C2: after `weights_theo = X` (X passing the shape check with result
`m`), reading `weights_bio` yields exactly `convert_weights_theo_to_bio`
applied to the stored matrix `m`, and the previously cached `weights_bio`
value has been invalidated; symmetrically for `weights_bio = X`. -/
theorem C2_weight_views_cache (n : ℕ) (samplers : Fin n → CalibrationCurve)
    (st : BMWeightsState n) (x : WeightsValue) (m : Mat n)
    (h : check_weight_matrix n x = .ok m) :
    (get_weights_bio samplers (set_weights_theo st x)
        = some (convert_weights_theo_to_bio samplers m)
      ∧ (set_weights_theo st x).bioCache = none)
    ∧ (get_weights_theo samplers (set_weights_bio st x)
        = some (convert_weights_bio_to_theo samplers m)
      ∧ (set_weights_bio st x).theoCache = none) := by
  constructor
  · constructor
    · simp [set_weights_theo, get_weights_bio, h]
    · simp [set_weights_theo, h]
  · constructor
    · simp [set_weights_bio, get_weights_theo, h]
    · simp [set_weights_bio, h]

/-- Witness for `C2_weight_views_cache`: one sampler, a state whose two
caches hold the stale matrices `5` and `7`, and the write
`weights_theo = 2`. -/
theorem C2_weight_views_cache_witness :
    check_weight_matrix 1 (.scalar 2) = .ok (fill_diagonal (fun _ _ => 2) 0)
    ∧ (get_weights_bio (fun _ : Fin 1 => CalibrationCurve.mk 3 0)
        (set_weights_theo ⟨some (fun _ _ => 5), some (fun _ _ => 7)⟩ (.scalar 2))
        = some (convert_weights_theo_to_bio (fun _ : Fin 1 => CalibrationCurve.mk 3 0)
            (fill_diagonal (fun _ _ => 2) 0))
      ∧ (set_weights_theo (⟨some (fun _ _ => 5), some (fun _ _ => 7)⟩ : BMWeightsState 1)
          (.scalar 2)).bioCache = none) :=
  ⟨rfl,
   (C2_weight_views_cache 1 (fun _ => CalibrationCurve.mk 3 0)
     ⟨some (fun _ _ => 5), some (fun _ _ => 7)⟩ (.scalar 2)
     (fill_diagonal (fun _ _ => 2) 0) rfl).1⟩

/-! ### C8 : shape check of the weight setter -/

/-- Claim C8: assigning a weight matrix whose shape is neither scalar nor
`(n, n)` fails the shape check and leaves the stored weights unchanged
(neither setter mutates the state), while a scalar `s` is broadcast to the
full `n × n` matrix with every off-diagonal entry `s` and zero diagonal. -/
theorem C8_shape_and_scalar (n rows cols : ℕ) (entries : ℕ → ℕ → ℚ)
    (st : BMWeightsState n) (h : ¬(rows = n ∧ cols = n)) :
    check_weight_matrix n (.matrix rows cols entries) = .error .shape
    ∧ set_weights_theo st (.matrix rows cols entries) = st
    ∧ set_weights_bio st (.matrix rows cols entries) = st
    ∧ ∀ s : ℚ, check_weight_matrix n (.scalar s)
        = .ok (fun i j => if i = j then 0 else s) := by
  have hc : check_weight_matrix n (.matrix rows cols entries) = .error .shape := by
    simp [check_weight_matrix, h]
  refine ⟨hc, ?_, ?_, fun s => rfl⟩
  · simp [set_weights_theo, hc]
  · simp [set_weights_bio, hc]

/-- Witness for `C8_shape_and_scalar`: `n = 2`, a `(2, 3)` matrix is
rejected and the state `⟨some 7, none⟩` is untouched. -/
theorem C8_shape_and_scalar_witness :
    ¬((2 : ℕ) = 2 ∧ (3 : ℕ) = 2)
    ∧ check_weight_matrix 2 (.matrix 2 3 (fun _ _ => 5)) = .error .shape
    ∧ set_weights_theo (⟨some (fun _ _ => 7), none⟩ : BMWeightsState 2)
        (.matrix 2 3 (fun _ _ => 5)) = ⟨some (fun _ _ => 7), none⟩ := by
  have hthm := C8_shape_and_scalar 2 2 3 (fun _ _ => 5)
    (⟨some (fun _ _ => 7), none⟩ : BMWeightsState 2) (by decide)
  exact ⟨by decide, hthm.1, hthm.2.1⟩

/-! ### C9 : calibration loading never aborts the batch -/

/-- The loop of `load_calibration` equals, at every loop counter, the filter
of the enumerated sampler list by load failure: every sampler is examined no
matter how many earlier loads failed. -/
theorem load_calibration_from_eq (ids : List ℕ) (i : ℕ)
    (ss : List SamplerModel) :
    load_calibration_from i ids ss
      = ((ss.enumFrom i).filter (fun p => !p.2.load_ok ids[p.1]?)).map
          (fun p => p.2.param_id) := by
  induction ss generalizing i with
  | nil => simp [load_calibration_from]
  | cons s rest ih =>
    simp only [load_calibration_from, List.enumFrom, List.filter_cons]
    by_cases h : s.load_ok ids[i]?
    · simp [h, ih]
    · simp [h, ih]

/-- Claim C9: `load_calibration` visits every sampler — its result is the
filter of the full enumerated sampler list by load failure, mapped to
`neuron_params.id` — so a failure never aborts the batch, the returned list
holds the identifiers of exactly the failing samplers, and it is empty when
every load succeeds. -/
theorem C9_collects_all_failures (samplers : List SamplerModel)
    (ids : List ℕ) :
    load_calibration samplers ids
      = ((samplers.enum.filter (fun p => !p.2.load_ok ids[p.1]?)).map
          (fun p => p.2.param_id))
    ∧ ((∀ p ∈ samplers.enum, p.2.load_ok ids[p.1]? = true) →
        load_calibration samplers ids = []) := by
  have h1 : load_calibration samplers ids
      = ((samplers.enum.filter (fun p => !p.2.load_ok ids[p.1]?)).map
          (fun p => p.2.param_id)) := by
    simpa [load_calibration, List.enum] using
      load_calibration_from_eq ids 0 samplers
  refine ⟨h1, fun hall => ?_⟩
  rw [h1]
  have hnil : samplers.enum.filter (fun p => !p.2.load_ok ids[p.1]?) = [] := by
    rw [List.filter_eq_nil_iff]
    intro p hp
    simp [hall p hp]
  rw [hnil]
  rfl

/-- Witness for `C9_collects_all_failures`: two samplers whose loads fail
(ids 3 and 4 are both reported, the second attempted after the first
failure), and one all-success machine returning the empty list. -/
theorem C9_collects_all_failures_witness :
    load_calibration [⟨3, fun _ => false⟩, ⟨4, fun o => o.isSome⟩] [7] = [3, 4]
    ∧ load_calibration [⟨3, fun _ => true⟩] [] = [] :=
  ⟨rfl, (C9_collects_all_failures [⟨3, fun _ => true⟩] []).2 (by decide)⟩

/-! ### C6 : the marginal estimator writes at the global sampler index -/

/-- Claim C6 is a code bug: `dist_marginal_sim` allocates `marginals` with
length `|S|` but writes `marginals[i]` at the GLOBAL sampler index `i`.
First conjunct (the failing input): with three samplers and the selected
subset `{2}` the write `marginals[2]` hits a length-1 array and raises
`IndexError`, where the claim promises the vector
`[len(spiketrains[2]) * tau_refrac_2 / d]`.  Second conjunct: when the
selected subset happens to be the full prefix `{0, 1, 2}`, global index and
subset position coincide and the claimed formula
`len(spiketrains[i]) * tau_refrac_i / d` does come out. -/
theorem C6_marginal_global_index_bug :
    dist_marginal_sim [[], [], [(1 : ℚ)]] [1, 1, 1] 100 [2] = .error .indexErr
    ∧ dist_marginal_sim [[], [(3 : ℚ)], [(1 : ℚ), 5]] [2, 3, 4] 100 [0, 1, 2]
        = .ok [0, 3 / 100, 8 / 100] := by
  constructor
  · norm_num [dist_marginal_sim, write_marginals, np_setitem]
  · norm_num [dist_marginal_sim, write_marginals, np_setitem, List.getD,
      List.replicate_succ, List.set_cons_zero, List.set_cons_succ]

/-! ### C7 : the intended calibration probe points -/

/-- Element `k` of `linspace a b num`. -/
theorem linspace_getD (a b : ℚ) (num k : ℕ) (h : k < num) :
    (linspace a b num).getD k 0
      = a + (k : ℚ) * (b - a) / ((num : ℚ) - 1) := by
  rw [linspace, List.getD_eq_getElem?_getD, List.getElem?_map,
    List.getElem?_range h]
  rfl

/-- Claim C7, intended behaviour (the source line itself raises `NameError`
because of the `spead` typo): the probe-point list has exactly `num_samples`
entries, runs from `mean - std_range*std` to `mean + std_range*std`
inclusive, and consecutive entries differ by the constant spacing
`2*std_range*std/(num_samples - 1)`. -/
theorem C7_probe_points_intended (mean std std_range : ℚ) (num : ℕ)
    (h : 2 ≤ num) :
    (samples_v_rest_intended mean std std_range num).length = num
    ∧ (samples_v_rest_intended mean std std_range num).getD 0 0
        = mean - std_range * std
    ∧ (samples_v_rest_intended mean std std_range num).getD (num - 1) 0
        = mean + std_range * std
    ∧ ∀ k, k + 1 < num →
        (samples_v_rest_intended mean std std_range num).getD (k + 1) 0
          - (samples_v_rest_intended mean std std_range num).getD k 0
          = 2 * std_range * std / ((num : ℚ) - 1) := by
  have hnum0 : 0 < num := by omega
  have hcast : ((num : ℚ) - 1) ≠ 0 := by
    have : (2 : ℚ) ≤ (num : ℚ) := by exact_mod_cast h
    linarith
  refine ⟨?_, ?_, ?_, ?_⟩
  · rw [samples_v_rest_intended, linspace, List.length_map, List.length_range]
  · rw [samples_v_rest_intended, linspace_getD _ _ _ _ hnum0]
    simp
  · rw [samples_v_rest_intended,
      linspace_getD _ _ _ _ (Nat.sub_lt hnum0 Nat.one_pos)]
    have hc : ((num - 1 : ℕ) : ℚ) = (num : ℚ) - 1 := by
      have h1 : 1 ≤ num := by omega
      push_cast [h1]
      ring
    rw [hc, mul_comm ((num : ℚ) - 1), mul_div_cancel_right₀ _ hcast]
    ring
  · intro k hk
    rw [samples_v_rest_intended, linspace_getD _ _ _ _ hk,
      linspace_getD _ _ _ _ (by omega : k < num)]
    rw [add_sub_add_left_eq_sub, ← sub_div, ← sub_mul]
    push_cast
    ring_nf

/-- Witness for `C7_probe_points_intended` at `mean = 0`, `std = 1`,
`std_range = 2`, `num_samples = 3`: probes `[-2, 0, 2]`, spacing `2`. -/
theorem C7_probe_points_intended_witness :
    (2 ≤ 3)
    ∧ (samples_v_rest_intended 0 1 2 3).length = 3
    ∧ (samples_v_rest_intended 0 1 2 3).getD 0 0 = 0 - 2 * 1
    ∧ (samples_v_rest_intended 0 1 2 3).getD 2 0 = 0 + 2 * 1
    ∧ (samples_v_rest_intended 0 1 2 3).getD 1 0
        - (samples_v_rest_intended 0 1 2 3).getD 0 0
        = 2 * 2 * 1 / ((3 : ℚ) - 1) := by
  have h := C7_probe_points_intended 0 1 2 3 (by norm_num)
  exact ⟨by norm_num, h.1, h.2.1, h.2.2.1, h.2.2.2 0 (by norm_num)⟩

/-! ### C5 : ordering of the merged spike index -/

/-- Counting records in the flattening loop: the record `(i, t)` occurs in
`flatten_spikes_from k sts` exactly as often as the time `t` occurs in train
number `i - k` (and not at all for `i < k`). -/
theorem count_flatten_spikes_from (sts : List (List ℚ)) (k i : ℕ) (t : ℚ) :
    (flatten_spikes_from k sts).count ⟨i, t⟩
      = if k ≤ i then (sts.getD (i - k) []).count t else 0 := by
  induction sts generalizing k with
  | nil => simp [flatten_spikes_from, List.getD_nil]
  | cons st rest ih =>
    simp only [flatten_spikes_from, List.count_append]
    rw [ih (k + 1)]
    by_cases hik : i = k
    · subst hik
      have hinj : Function.Injective (fun t : ℚ => Spike.mk i t) := by
        intro a b hab
        simpa using hab
      have h1 : (st.map (fun t => Spike.mk i t)).count ⟨i, t⟩ = st.count t :=
        List.count_map_of_injective _ _ hinj _
      have h2 : ¬(i + 1 ≤ i) := by omega
      simp [h1, h2]
    · have h1 : (st.map (fun t => Spike.mk k t)).count ⟨i, t⟩ = 0 := by
        refine List.count_eq_zero.mpr ?_
        intro hmem
        obtain ⟨t2, _, heq⟩ := List.mem_map.mp hmem
        exact hik ((congrArg Spike.id heq).symm : i = k)
      rw [h1]
      by_cases hk : k + 1 ≤ i
      · have hk2 : k ≤ i := by omega
        have hsub : i - k = (i - (k + 1)) + 1 := by omega
        simp [hk, hk2, hsub]
      · have hk2 : ¬(k ≤ i) := by omega
        simp [hk, hk2]

/-- Claim C5 counterexample: with two trains each holding one spike at time
`0`, the output `[(1, 0), (0, 0)]` is admissible for
`get_ordered_spike_idx` — it is a permutation of the flat record array with
ascending times, which is everything `np.argsort` (default, non-stable
`quicksort`) guarantees — yet it does not preserve the append order
(train 0 first), which the claim requires of every output. -/
theorem C5_counterexample :
    IsOrderedSpikeIdx [[0], [0]] [⟨1, 0⟩, ⟨0, 0⟩]
    ∧ ([⟨1, 0⟩, ⟨0, 0⟩] : List Spike) ≠ [⟨0, 0⟩, ⟨1, 0⟩] := by
  refine ⟨⟨?_, ?_⟩, ?_⟩
  · decide
  · decide
  · decide

/-- Claim C5, amended: every admissible output of `get_ordered_spike_idx`
contains exactly the input spikes — for every train index `i` and time `t`,
the record `(i, t)` occurs as often as `t` occurs in `spiketrains[i]` — and
is sorted ascending by time; the order among records with equal times is
unspecified. -/
theorem C5_sorted_and_complete (spiketrains : List (List ℚ))
    (out : List Spike) (h : IsOrderedSpikeIdx spiketrains out) :
    (∀ i t, out.count ⟨i, t⟩ = (spiketrains.getD i []).count t)
    ∧ out.Sorted (fun a b => a.t ≤ b.t) := by
  refine ⟨fun i t => ?_, h.2⟩
  rw [h.1.count_eq]
  simpa [flatten_spikes] using count_flatten_spikes_from spiketrains 0 i t

/-- Witness for `C5_sorted_and_complete` on the spike data `[[0], [1]]` with
output `[(0, 0), (1, 1)]`. -/
theorem C5_sorted_and_complete_witness :
    ([⟨0, 0⟩, ⟨1, 1⟩] : List Spike).count ⟨0, 0⟩ = [(0 : ℚ)].count 0
    ∧ List.Sorted (fun a b : Spike => a.t ≤ b.t) [⟨0, 0⟩, ⟨1, 1⟩] := by
  have h := C5_sorted_and_complete [[0], [1]] [⟨0, 0⟩, ⟨1, 1⟩]
    ⟨by decide, by decide⟩
  exact ⟨h.1 0 0, h.2⟩

/-! ### C3 : no conductance check, no DomainError -/

/-- Inversion of a successful `IF_curr_alpha_distribution` run: whatever
value the kernel returns carries `g_tot = g_l` and `tau_eff = cm / g_l` —
the only failures on the way to the return value are the shape-related
`TypeError`/`ValueError` of the variance array, never a conductance check. -/
theorem IF_curr_alpha_ok_inv (re ri we wi : List ℝ) (vr tE tI gl cm : ℝ)
    (res : MPDist × List ℝ × List ℝ)
    (h : SbsUtils.IF_curr_alpha_distribution re ri we wi vr tE tI gl cm
      = .ok res) :
    res.1.g_tot = gl ∧ res.1.tau_eff = cm / gl := by
  simp only [SbsUtils.IF_curr_alpha_distribution] at h
  split at h
  · exact absurd h (by simp)
  · split at h
    · exact absurd h (by simp)
    · injection h with h2
      subst h2
      exact ⟨rfl, rfl⟩

/-- Claim C3 counterexample: no kernel checks the total conductance — no
`DomainError` and no conductance-dependent raise exists in any of them.  At
a degenerate input with `g_l = -1` and no sources, `g_tot = -1 ≤ 0`, yet
`IF_cond_exp_distribution` returns the ordinary straight-line result
`(v_eff, sigma, g_tot, tau_eff) = (-50, 0, -1, -1)` (together with the
emptied rate arrays) instead of failing with a `DomainError`. -/
theorem C3_counterexample :
    SbsUtils.IF_cond_exp_distribution [] [] [] [] 0 (-100) 10 10 (-1) (-50) 1
      = (⟨-50, 0, -1, -1⟩, [], [])
    ∧ ((-1 : ℝ) ≤ 0) := by
  constructor
  · norm_num [SbsUtils.IF_cond_exp_distribution, np_dot, Prod.ext_iff,
      MPDist.mk.injEq, Real.sqrt_zero]
  · norm_num

/-- Claim C3, amended: no kernel checks the total conductance and no
`DomainError` exists in the code.  `IF_cond_exp`, `IF_cond_alpha` and
`IF_curr_exp` have no failure path at all and return the straight-line
arithmetic result even at non-positive `g_tot` — for `g_tot < 0` and
`cm > 0` a negative effective time constant `cm / g_tot`.
`IF_curr_alpha_distribution` can fail, but only with the shape-related
`TypeError`/`ValueError` of its array-valued variance; whenever it returns,
it too returns `tau_eff = cm / g_tot`, negative under the same
conditions. -/
theorem C3_no_domain_check :
    (∀ (re ri we wi : List ℝ) (eE eI tE tI gl vr cm : ℝ), 0 < cm →
      (SbsUtils.IF_cond_exp_distribution re ri we wi eE eI tE tI gl vr cm).1.g_tot < 0 →
      (SbsUtils.IF_cond_exp_distribution re ri we wi eE eI tE tI gl vr cm).1.tau_eff < 0)
    ∧ (∀ (re ri we wi : List ℝ) (eE eI tE tI gl vr cm : ℝ), 0 < cm →
      (SbsUtils.IF_cond_alpha_distribution re ri we wi eE eI tE tI gl vr cm).1.g_tot < 0 →
      (SbsUtils.IF_cond_alpha_distribution re ri we wi eE eI tE tI gl vr cm).1.tau_eff < 0)
    ∧ (∀ (re ri we wi : List ℝ) (vr tE tI gl cm : ℝ), 0 < cm →
      (SbsUtils.IF_curr_exp_distribution re ri we wi vr tE tI gl cm).1.g_tot < 0 →
      (SbsUtils.IF_curr_exp_distribution re ri we wi vr tE tI gl cm).1.tau_eff < 0)
    ∧ (∀ (re ri we wi : List ℝ) (vr tE tI gl cm : ℝ)
        (res : MPDist × List ℝ × List ℝ),
      SbsUtils.IF_curr_alpha_distribution re ri we wi vr tE tI gl cm = .ok res →
      0 < cm → res.1.g_tot < 0 → res.1.tau_eff < 0) := by
  refine ⟨?_, ?_, ?_, ?_⟩
  · intro re ri we wi eE eI tE tI gl vr cm hcm hg
    have he : (SbsUtils.IF_cond_exp_distribution re ri we wi eE eI tE tI gl vr cm).1.tau_eff
        = cm / (SbsUtils.IF_cond_exp_distribution re ri we wi eE eI tE tI gl vr cm).1.g_tot :=
      rfl
    rw [he]
    exact div_neg_of_pos_of_neg hcm hg
  · intro re ri we wi eE eI tE tI gl vr cm hcm hg
    have he : (SbsUtils.IF_cond_alpha_distribution re ri we wi eE eI tE tI gl vr cm).1.tau_eff
        = cm / (SbsUtils.IF_cond_alpha_distribution re ri we wi eE eI tE tI gl vr cm).1.g_tot :=
      rfl
    rw [he]
    exact div_neg_of_pos_of_neg hcm hg
  · intro re ri we wi vr tE tI gl cm hcm hg
    have he : (SbsUtils.IF_curr_exp_distribution re ri we wi vr tE tI gl cm).1.tau_eff
        = cm / (SbsUtils.IF_curr_exp_distribution re ri we wi vr tE tI gl cm).1.g_tot :=
      rfl
    rw [he]
    exact div_neg_of_pos_of_neg hcm hg
  · intro re ri we wi vr tE tI gl cm res h hcm hg
    obtain ⟨h1, h2⟩ := IF_curr_alpha_ok_inv re ri we wi vr tE tI gl cm res h
    rw [h1] at hg
    rw [h2]
    exact div_neg_of_pos_of_neg hcm hg

/-- Witness for `C3_no_domain_check` at degenerate inputs: the
counterexample's input for the conductance kernel (`cm = 1 > 0`,
`g_tot = -1 < 0`), and a single-source run of the current-alpha kernel with
`g_l = -1` that returns successfully with `tau_eff = -1 < 0`. -/
theorem C3_no_domain_check_witness :
    (0 : ℝ) < 1
    ∧ (SbsUtils.IF_cond_exp_distribution [] [] [] [] 0 (-100) 10 10 (-1) (-50) 1).1.g_tot < 0
    ∧ (SbsUtils.IF_cond_exp_distribution [] [] [] [] 0 (-100) 10 10 (-1) (-50) 1).1.tau_eff < 0
    ∧ SbsUtils.IF_curr_alpha_distribution [0] [0] [0] [0] 0 10 10 (-1) 1
        = .ok (⟨0, 0, -1, -1⟩, [0], [0])
    ∧ (MPDist.mk 0 0 (-1) (-1)).tau_eff < 0 := by
  have hg : (SbsUtils.IF_cond_exp_distribution [] [] [] [] 0 (-100) 10 10 (-1) (-50) 1).1.g_tot < 0 := by
    norm_num [SbsUtils.IF_cond_exp_distribution, np_dot]
  have hok : SbsUtils.IF_curr_alpha_distribution [0] [0] [0] [0] 0 10 10 (-1) 1
      = .ok (⟨0, 0, -1, -1⟩, [0], [0]) := by
    norm_num [SbsUtils.IF_curr_alpha_distribution, np_dot, np_broadcast_add,
      np_float, Real.sqrt_zero, Prod.ext_iff, MPDist.mk.injEq]
  refine ⟨by norm_num, hg,
    C3_no_domain_check.1 [] [] [] [] 0 (-100) 10 10 (-1) (-50) 1 (by norm_num) hg,
    hok, ?_⟩
  exact C3_no_domain_check.2.2.2 [0] [0] [0] [0] 0 10 10 (-1) 1
    (⟨0, 0, -1, -1⟩, [0], [0]) hok (by norm_num) (by norm_num)

/-! ### C4 : absolute values, Hz→kHz scaling, tau_eff -/

/-- Dot product against an elementwise-divided list. -/
theorem np_dot_map_div (a b : List ℝ) (c : ℝ) :
    np_dot a (b.map (fun x => x / c)) = np_dot a b / c := by
  induction a generalizing b with
  | nil => simp [np_dot]
  | cons x xs ih =>
    cases b with
    | nil => simp [np_dot]
    | cons y ys =>
      have ihy := ih ys
      simp only [np_dot, List.map_cons, List.zipWith_cons_cons,
        List.sum_cons] at ihy ⊢
      rw [ihy, ← mul_div_assoc, div_add_div_same]

/-- Negating every weight is invisible after the absolute value. -/
theorem map_abs_map_neg (l : List ℝ) :
    (l.map (fun w => -w)).map (fun w => |w|) = l.map (fun w => |w|) := by
  simp [List.map_map, Function.comp_def, abs_neg]

/-- Claim C4 counterexample: `src/utils.py`'s `IF_cond_exp_distribution`
does NOT replace the weights by absolute values.  With one excitatory source
of rate 1000 Hz and weight `-2`, `tau_syn_E = 10` and `g_l = 1`, it returns
`g_tot = (-2)·1·10 + 0 + 1 = -19`, whereas the claim requires the
absolute-value sum `|−2|·1·10 + 0 + 1 = 21`. -/
theorem C4_counterexample :
    (Utils.IF_cond_exp_distribution [1000] [0] [-2] [0]
        0 (-100) 10 10 1 (-50) 1).1.g_tot = -19
    ∧ ((-19 : ℝ) ≠ 21) := by
  constructor
  · norm_num [Utils.IF_cond_exp_distribution, np_dot]
  · norm_num

/-- Claim C4, amended: in the `sbs/utils.py` conductance kernels the weights
enter the conductance sums through their absolute values (the whole result
is invariant under flipping every weight sign) and
`g_tot = |w_exc|·r_exc/1000·tau_syn_E (·e) + |w_inh|·r_inh/1000·tau_syn_I
(·e) + g_l`, with the rates divided by 1000 exactly once;
`IF_cond_exp_distribution`, `IF_cond_alpha_distribution` and
`IF_curr_exp_distribution` return `tau_eff = cm / g_tot` unconditionally,
and `IF_curr_alpha_distribution` — which raises `TypeError` unless its
array-valued variance has exactly one element — returns
`tau_eff = cm / g_tot` whenever it returns at all; the old `src/utils.py`
kernel instead uses the SIGNED weights (and returns no `tau_eff` at all). -/
theorem C4_abs_khz_tau (re ri we wi : List ℝ) (eE eI tE tI gl vr cm : ℝ) :
    ((SbsUtils.IF_cond_exp_distribution re ri we wi eE eI tE tI gl vr cm).1.g_tot
        = np_dot (we.map (fun w => |w|)) re / 1000 * tE
          + np_dot (wi.map (fun w => |w|)) ri / 1000 * tI + gl)
    ∧ ((SbsUtils.IF_cond_exp_distribution re ri we wi eE eI tE tI gl vr cm).1.tau_eff
        = cm / (SbsUtils.IF_cond_exp_distribution re ri we wi eE eI tE tI gl vr cm).1.g_tot)
    ∧ (SbsUtils.IF_cond_exp_distribution re ri (we.map (fun w => -w))
          (wi.map (fun w => -w)) eE eI tE tI gl vr cm
        = SbsUtils.IF_cond_exp_distribution re ri we wi eE eI tE tI gl vr cm)
    ∧ ((SbsUtils.IF_cond_alpha_distribution re ri we wi eE eI tE tI gl vr cm).1.g_tot
        = np_dot (we.map (fun w => |w|)) re / 1000 * tE * Real.exp 1
          + np_dot (wi.map (fun w => |w|)) ri / 1000 * tI * Real.exp 1 + gl)
    ∧ ((SbsUtils.IF_cond_alpha_distribution re ri we wi eE eI tE tI gl vr cm).1.tau_eff
        = cm / (SbsUtils.IF_cond_alpha_distribution re ri we wi eE eI tE tI gl vr cm).1.g_tot)
    ∧ (SbsUtils.IF_cond_alpha_distribution re ri (we.map (fun w => -w))
          (wi.map (fun w => -w)) eE eI tE tI gl vr cm
        = SbsUtils.IF_cond_alpha_distribution re ri we wi eE eI tE tI gl vr cm)
    ∧ ((SbsUtils.IF_curr_exp_distribution re ri we wi vr tE tI gl cm).1.tau_eff
        = cm / (SbsUtils.IF_curr_exp_distribution re ri we wi vr tE tI gl cm).1.g_tot)
    ∧ (∀ res : MPDist × List ℝ × List ℝ,
        SbsUtils.IF_curr_alpha_distribution re ri we wi vr tE tI gl cm = .ok res →
        res.1.tau_eff = cm / res.1.g_tot)
    ∧ ((Utils.IF_cond_exp_distribution re ri we wi eE eI tE tI gl vr cm).1.g_tot
        = np_dot we re / 1000 * tE + np_dot wi ri / 1000 * tI + gl) := by
  refine ⟨?_, rfl, ?_, ?_, rfl, ?_, rfl, ?_, ?_⟩
  · simp only [SbsUtils.IF_cond_exp_distribution]
    rw [np_dot_map_div, np_dot_map_div]
  · simp only [SbsUtils.IF_cond_exp_distribution]
    rw [map_abs_map_neg, map_abs_map_neg]
  · simp only [SbsUtils.IF_cond_alpha_distribution]
    rw [np_dot_map_div, np_dot_map_div]
  · simp only [SbsUtils.IF_cond_alpha_distribution]
    rw [map_abs_map_neg, map_abs_map_neg]
  · intro res h
    obtain ⟨h1, h2⟩ := IF_curr_alpha_ok_inv re ri we wi vr tE tI gl cm res h
    rw [h1, h2]
  · simp only [Utils.IF_cond_exp_distribution]
    rw [np_dot_map_div, np_dot_map_div]

/-- Witness for `C4_abs_khz_tau`: a single-source current-alpha run that
returns successfully (so the `.ok` hypothesis of the `curr_alpha` conjunct
is discharged concretely) with `tau_eff = 1 = 1 / g_tot`. -/
theorem C4_abs_khz_tau_witness :
    SbsUtils.IF_curr_alpha_distribution [0] [0] [0] [0] 0 10 10 1 1
      = .ok (⟨0, 0, 1, 1⟩, [0], [0])
    ∧ (MPDist.mk 0 0 1 1).tau_eff = 1 / (MPDist.mk 0 0 1 1).g_tot := by
  have hok : SbsUtils.IF_curr_alpha_distribution [0] [0] [0] [0] 0 10 10 1 1
      = .ok (⟨0, 0, 1, 1⟩, [0], [0]) := by
    norm_num [SbsUtils.IF_curr_alpha_distribution, np_dot, np_broadcast_add,
      np_float, Real.sqrt_zero, Prod.ext_iff, MPDist.mk.injEq]
  exact ⟨hok,
    (C4_abs_khz_tau [0] [0] [0] [0] 0 0 10 10 1 0 1).2.2.2.2.2.2.2.1
      (⟨0, 0, 1, 1⟩, [0], [0]) hok⟩

/-! ### C10 : the rate arrays are mutated in place -/

/-- Scaling by 1000 twice is scaling by 1000000. -/
theorem map_div_thousand_twice (l : List ℝ) :
    (l.map (fun r => r / 1000)).map (fun r => r / 1000)
      = l.map (fun r => r / 1000000) := by
  rw [List.map_map]
  norm_num [Function.comp_def, div_div]

/-- Claim C10: after any kernel call the caller's rate arrays hold the
kHz-scaled values (each element divided by 1000) — shown for
`sbs.IF_cond_exp_distribution`, the old `utils.IF_cond_exp_distribution`
and `sbs.IF_curr_exp_distribution` — and feeding the arrays left behind by
one call into a second call scales them a second time, to `r / 1000000`. -/
theorem C10_rates_mutated_in_place :
    (∀ (re ri we wi : List ℝ) (eE eI tE tI gl vr cm : ℝ),
      (SbsUtils.IF_cond_exp_distribution re ri we wi eE eI tE tI gl vr cm).2
        = (re.map (fun r => r / 1000), ri.map (fun r => r / 1000)))
    ∧ (∀ (re ri we wi : List ℝ) (eE eI tE tI gl vr cm : ℝ),
      (Utils.IF_cond_exp_distribution re ri we wi eE eI tE tI gl vr cm).2
        = (re.map (fun r => r / 1000), ri.map (fun r => r / 1000)))
    ∧ (∀ (re ri we wi : List ℝ) (vr tE tI gl cm : ℝ),
      (SbsUtils.IF_curr_exp_distribution re ri we wi vr tE tI gl cm).2
        = (re.map (fun r => r / 1000), ri.map (fun r => r / 1000)))
    ∧ (∀ (re ri we wi : List ℝ) (eE eI tE tI gl vr cm eE2 eI2 tE2 tI2 gl2 vr2 cm2 : ℝ),
      (SbsUtils.IF_cond_exp_distribution
          (SbsUtils.IF_cond_exp_distribution re ri we wi eE eI tE tI gl vr cm).2.1
          (SbsUtils.IF_cond_exp_distribution re ri we wi eE eI tE tI gl vr cm).2.2
          we wi eE2 eI2 tE2 tI2 gl2 vr2 cm2).2
        = (re.map (fun r => r / 1000000), ri.map (fun r => r / 1000000))) := by
  refine ⟨fun _ _ _ _ _ _ _ _ _ _ _ => rfl, fun _ _ _ _ _ _ _ _ _ _ _ => rfl,
    fun _ _ _ _ _ _ _ _ _ => rfl, ?_⟩
  intro re ri we wi eE eI tE tI gl vr cm eE2 eI2 tE2 tI2 gl2 vr2 cm2
  show ((re.map (fun r => r / 1000)).map (fun r => r / 1000),
        (ri.map (fun r => r / 1000)).map (fun r => r / 1000))
      = (re.map (fun r => r / 1000000), ri.map (fun r => r / 1000000))
  rw [map_div_thousand_twice, map_div_thousand_twice]
